import Mathlib

/-!
Shallow embedding of `port_forwarder.go` (package liveshare): a
`PortForwarder` relays TCP traffic over a LiveShare session between a
remote container port and a local listener or stream.

Go errors are nilable values compared for equality (`err == nil`,
`closeErr != io.EOF`), so they are embedded as `Option GoError`, with
one constructor per `fmt.Errorf` wrapping site of the source plus
`io.EOF` and a catch-all for externally produced errors.  Goroutine
nondeterminism (which `select` arm fires first, the order in which
concurrent handlers attempt delivery, the accept-result stream) is
passed in explicitly as oracle data; the functions below are otherwise
line-by-line translations of the Go source.
-/

/-- Errors of the Go program.  `eof` is `io.EOF`; the two wrapping
constructors mirror the two `fmt.Errorf` call sites in
`port_forwarder.go` (lines 93 and 113); `other` stands for any error
produced by external collaborators (the session, `Accept`, `Close`,
`ctx.Err()`). -/
inductive GoError where
  | eof
  | failedToShareRemotePort (remotePort : Int) (cause : GoError)
  | openStreamingChannelError (cause : GoError)
  | other (msg : String)
deriving DecidableEq, Repr

/-- The opaque `channelID` token returned by `session.startSharing`. -/
abbrev channelID := Nat

/-- Which arm of the `select` in `awaitError` (lines 99-104) resolves
first: a value becomes available on `errc`, or `ctx.Done()` closes. -/
inductive RaceWinner where
  | errorFirst
  | cancelFirst
deriving DecidableEq, Repr

/-- Embeds `awaitError` (lines 98-105): `select` racing a receive from
the error channel against context cancellation.  `slotVal` is the value
the receive would yield (the single-slot channel's content) and
`ctxErr` is what `ctx.Err()` returns once `Done` has closed. -/
def awaitError (winner : RaceWinner) (slotVal : Option GoError) (ctxErr : Option GoError) :
    Option GoError :=
  match winner with
  | .errorFirst => slotVal
  | .cancelFirst => ctxErr

/-- Embeds `shareRemotePort` (lines 90-96).  `startSharingRes` is the
`(channelID, error)` pair returned by `fwd.session.startSharing`.  The
Go body wraps a non-nil error as
`fmt.Errorf("failed to share remote port %d: %v", ...)` but its final
statement is `return id, nil`, so the wrapped error is discarded and
the error component of the result is always nil. -/
def shareRemotePort (remotePort : Int) (startSharingRes : channelID × Option GoError) :
    channelID × Option GoError :=
  let id := startSharingRes.1
  let err := (startSharingRes.2).map (GoError.failedToShareRemotePort remotePort)
  (id, none)

/-- Embeds `sendError` (lines 44-51): a non-blocking send on the
buffered (capacity one) channel `errc`.  The slot is `none` when empty.
Returns the new slot and whether the send case (rather than `default`)
was taken. -/
def sendError (slot : Option GoError) (e : GoError) : Option GoError × Bool :=
  match slot with
  | none => (some e, true)
  | some x => (some x, false)

/-- One delivery attempt folded over the slot together with a count of
how many attempts were actually delivered (took the send case). -/
def deliverStep (acc : Option GoError × Nat) (e : GoError) : Option GoError × Nat :=
  let r := sendError acc.1 e
  (r.1, acc.2 + (if r.2 then 1 else 0))

/-- The sequence of `sendError` attempts made during one
`ForwardToListener` call, in arrival order (each attempt comes from a
connection handler goroutine whose `handleConnection` returned a
non-nil error, or from the accept loop's terminal `Accept` error).
Returns the final slot content and the number of delivered attempts. -/
def runDeliveries (attempts : List GoError) : Option GoError × Nat :=
  attempts.foldl deliverStep (none, 0)

/-- Embeds the accept-loop goroutine of `ForwardToListener`
(lines 52-66).  The argument lists the successive results of
`listen.Accept()` (connections are abstracted to `Nat` ids).  Dispatched
connections are those handed to their own handler goroutine via
`go func() { ... handleConnection ... }`; the second component is the
error the loop passes to `sendError` before returning, `none` while the
loop is still blocked in `Accept`. -/
def acceptLoop : List (Except GoError Nat) → List Nat × Option GoError
  | [] => ([], none)
  | .ok conn :: rest =>
      let r := acceptLoop rest
      (conn :: r.1, r.2)
  | .error e :: _ => ([], some e)

/-- Embeds `safeClose` (lines 137-142): close the stream and record the
close error in `err` only if no error was previously recorded.
`closeErr` is what `closer.Close()` returns. -/
def safeClose (closeErr : Option GoError) (err : Option GoError) : Option GoError :=
  match err with
  | none => closeErr
  | some e => some e

/-- Observable outcome of one `handleConnection` run: the returned
error and how many times each of the two streams was closed. -/
structure HandleOutcome where
  result : Option GoError
  connCloseCount : Nat
  channelCloseCount : Nat
deriving DecidableEq, Repr

/-- Whether `fwd.session.openStreamingChannel` succeeded. -/
def isOpened (openResult : Except GoError Unit) : Bool :=
  match openResult with
  | .ok _ => true
  | .error _ => false

/-- Embeds `handleConnection` (lines 107-133).  Oracle inputs: the
result of `openStreamingChannel`, the value of `ctx.Err()` after
`<-ctx.Done()` unblocks, and the errors the two `Close` calls return.
The named return `err` threads through the deferred closers in LIFO
order: the channel-close closure (lines 118-123) runs first, then
`safeClose(conn, &err)` (line 109).  The two `go io.Copy` calls
(lines 128-129) deliberately discard their errors and do not touch
`err` (see `ioCopy`/`relay` below for the byte-level model). -/
def handleConnection (openResult : Except GoError Unit) (ctxErr : Option GoError)
    (channelCloseErr connCloseErr : Option GoError) : HandleOutcome :=
  match openResult with
  | .error e =>
      let err : Option GoError := some (GoError.openStreamingChannelError e)
      let err := safeClose connCloseErr err
      { result := err, connCloseCount := 1, channelCloseCount := 0 }
  | .ok _ =>
      let err : Option GoError := ctxErr
      let err := if err = none ∧ channelCloseErr ≠ some GoError.eof then channelCloseErr else err
      let err := safeClose connCloseErr err
      { result := err, connCloseCount := 1, channelCloseCount := 1 }

/-- Spec wording (section 4.4): the first non-nil outcome among
channel-open failure, context cancellation, and first-recorded close
error. -/
def firstNonNilOutcome (openFail ctxErr firstClose : Option GoError) : Option GoError :=
  match openFail with
  | some e => some e
  | none =>
      match ctxErr with
      | some c => some c
      | none => firstClose

/-- Spec wording (section 4.4): the first genuine close error recorded
by the handler's own closes — the remote channel's (when a channel was
opened) unless it is nil or the suppressed spurious `io.EOF`, otherwise
the local connection's. -/
def firstRecordedClose (channelOpened : Bool) (channelCloseErr connCloseErr : Option GoError) :
    Option GoError :=
  if channelOpened then
    if channelCloseErr ≠ none ∧ channelCloseErr ≠ some GoError.eof then channelCloseErr
    else connCloseErr
  else connCloseErr

/-- The channel-open failure as `handleConnection` wraps it, if any. -/
def openFailure (openResult : Except GoError Unit) : Option GoError :=
  match openResult with
  | .error e => some (GoError.openStreamingChannelError e)
  | .ok _ => none

/-- Embeds `ForwardToListener` (lines 37-69): announce the port, and if
the announcement reports an error return it; otherwise spawn the accept
loop and handlers and block in `awaitError`.  `attempts` is the ordered
sequence of `sendError` attempts (see `runDeliveries`). -/
def ForwardToListener (remotePort : Int) (startSharingRes : channelID × Option GoError)
    (attempts : List GoError) (winner : RaceWinner) (ctxErr : Option GoError) :
    Option GoError :=
  match (shareRemotePort remotePort startSharingRes).2 with
  | some e => some e
  | none => awaitError winner (runDeliveries attempts).1 ctxErr

/-- Observable outcome of one `Forward` run. -/
structure ForwardOutcome where
  earlyClosed : Bool
  handlerRan : Bool
  result : Option GoError
deriving DecidableEq, Repr

/-- The deliveries `Forward`'s single goroutine makes: it sends the
handler's error only when it is non-nil (line 83-85). -/
def handlerDeliveries (handlerErr : Option GoError) : List GoError :=
  match handlerErr with
  | some e => [e]
  | none => []

/-- Embeds `Forward` (lines 73-88): announce the port; on a reported
announcement error close the supplied stream and return it; otherwise
run `handleConnection` on a goroutine (its returned error is
`handlerErr`) and block in `awaitError`.  `earlyClosed` records whether
the `conn.Close()` on the announcement-failure path (line 76) ran, and
`handlerRan` whether the handler goroutine was spawned. -/
def Forward (remotePort : Int) (startSharingRes : channelID × Option GoError)
    (handlerErr : Option GoError) (winner : RaceWinner) (ctxErr : Option GoError) :
    ForwardOutcome :=
  match (shareRemotePort remotePort startSharingRes).2 with
  | some e => { earlyClosed := true, handlerRan := false, result := some e }
  | none =>
      { earlyClosed := false, handlerRan := true,
        result := awaitError winner (runDeliveries (handlerDeliveries handlerErr)).1 ctxErr }

/-- Embeds `io.Copy(dst, src)` (lines 128-129): repeatedly read up to
32768 bytes (the stdlib buffer size) from the source and append them to
the destination until the source is exhausted.  Returns the
destination's byte sequence after the copy. -/
def ioCopy : List UInt8 → List UInt8 → List UInt8
  | [], dst => dst
  | b :: rest, dst => ioCopy ((b :: rest).drop 32768) (dst ++ (b :: rest).take 32768)
termination_by src _ => src.length
decreasing_by
  simp
  omega

/-- The bidirectional relay of `handleConnection`:
`go io.Copy(conn, channel)` and `go io.Copy(channel, conn)`.  Given the
byte sequences written by the local side (`localOut`) and by the remote
side (`remoteOut`), returns the bytes arriving at the local side and at
the remote channel, each starting from an empty destination. -/
def relay (localOut remoteOut : List UInt8) : List UInt8 × List UInt8 :=
  (ioCopy remoteOut [], ioCopy localOut [])

/- ### Helper lemmas -/

lemma foldl_deliverStep_occupied (l : List GoError) (x : GoError) (n : Nat) :
    l.foldl deliverStep (some x, n) = (some x, n) := by
  induction l with
  | nil => rfl
  | cons e rest ih =>
      simpa [deliverStep, sendError] using ih

lemma runDeliveries_cons (e : GoError) (rest : List GoError) :
    runDeliveries (e :: rest) = (some e, 1) := by
  have h := foldl_deliverStep_occupied rest e 1
  simpa [runDeliveries, deliverStep, sendError] using h

lemma runDeliveries_fst (l : List GoError) : (runDeliveries l).1 = l.head? := by
  cases l with
  | nil => rfl
  | cons e rest => simp [runDeliveries_cons]

lemma runDeliveries_snd_le_one (l : List GoError) : (runDeliveries l).2 ≤ 1 := by
  cases l with
  | nil => simp [runDeliveries]
  | cons e rest => simp [runDeliveries_cons]

lemma shareRemotePort_snd (remotePort : Int) (startSharingRes : channelID × Option GoError) :
    (shareRemotePort remotePort startSharingRes).2 = none := rfl

lemma ioCopy_appends (src dst : List UInt8) : ioCopy src dst = dst ++ src := by
  induction src, dst using ioCopy.induct with
  | case1 dst => simp [ioCopy]
  | case2 b rest dst ih =>
      rw [ioCopy.eq_def]
      simp only []
      rw [ih, List.append_assoc, List.take_append_drop]

/- ### Claims -/

/-- C1: the claim says that when `session.startSharing` fails,
`shareRemotePort` returns a non-nil error wrapping the cause and the
port.  Evaluating the embedded code at such a failing input shows the
error component of the result is nil: the `return id, nil` statement on
line 95 discards the wrapped error the function just built, so the
failure is silently swallowed and `ForwardToListener`/`Forward` proceed
as if the announcement had succeeded. -/
theorem shareRemotePort_discards_startSharing_error :
    (shareRemotePort 8080 (0, some (GoError.other "network failure"))).2 = none := rfl

/-- C2: the claim says that when the announcement fails, `Forward`
closes the supplied stream, returns the wrapped announcement error, and
never runs the handler.  Evaluating the embedded code with a failing
`startSharing` shows the opposite: because `shareRemotePort` reports
nil (see C1), the early-close path is not taken, the handler goroutine
runs (so a remote channel open is attempted), and the returned value is
whatever the race produces — here the context's cancellation error, not
an announcement error. -/
theorem Forward_runs_handler_despite_announcement_failure :
    Forward 8080 (0, some (GoError.other "remote-side rejection"))
        none RaceWinner.cancelFirst (some (GoError.other "context canceled"))
      = { earlyClosed := false, handlerRan := true,
          result := some (GoError.other "context canceled") } := rfl

/-- C3: in a run of `handleConnection` where the channel was opened,
(1) if no error was recorded before the remote channel is closed
(`ctx.Err()` gave nil) and the close reports the spurious `io.EOF`,
that condition is suppressed: the handler's result is exactly what the
local connection's close alone yields, so the channel's `io.EOF` never
surfaces; (2) any other close error from the remote channel is recorded
when no earlier error exists; (3) it is not recorded when an earlier
error exists — the earlier error is returned. -/
theorem handleConnection_suppresses_spurious_eof (connCloseErr : Option GoError) :
    ((handleConnection (Except.ok ()) none (some GoError.eof) connCloseErr).result
        = connCloseErr)
    ∧ (∀ e : GoError, e ≠ GoError.eof →
        (handleConnection (Except.ok ()) none (some e) connCloseErr).result = some e)
    ∧ (∀ c e : GoError,
        (handleConnection (Except.ok ()) (some c) (some e) connCloseErr).result = some c) := by
  refine ⟨?_, ?_, ?_⟩
  · simp [handleConnection, safeClose]
  · intro e he
    simp [handleConnection, safeClose, he]
  · intro c e
    simp [handleConnection, safeClose]

/-- Witness for C3 at concrete inputs: with no earlier error, a
spurious `io.EOF` on channel close is suppressed (here the local close
also succeeds, so the handler reports success). -/
theorem handleConnection_suppresses_spurious_eof_witness :
    (handleConnection (Except.ok ()) none (some (GoError.other "reset")) none).result
      = some (GoError.other "reset") :=
  (handleConnection_suppresses_spurious_eof none).2.1 (GoError.other "reset") (by decide)

/-- C4: the result of every `handleConnection` run is the first non-nil
outcome among channel-open failure, the context's cancellation error,
and the first-recorded close error (`firstNonNilOutcome`,
`firstRecordedClose` transcribe the spec's composition rule); and on
every exit path the local connection is closed and, whenever the open
succeeded, the remote channel is closed, regardless of which outcome
triggered the return. -/
theorem handleConnection_result_composition (openResult : Except GoError Unit)
    (ctxErr channelCloseErr connCloseErr : Option GoError) :
    (handleConnection openResult ctxErr channelCloseErr connCloseErr).result
        = firstNonNilOutcome (openFailure openResult) ctxErr
            (firstRecordedClose (isOpened openResult) channelCloseErr connCloseErr)
    ∧ (handleConnection openResult ctxErr channelCloseErr connCloseErr).connCloseCount = 1
    ∧ (handleConnection openResult ctxErr channelCloseErr connCloseErr).channelCloseCount
        = (if isOpened openResult then 1 else 0) := by
  refine ⟨?_, ?_, ?_⟩
  · cases openResult with
    | error e =>
        simp [handleConnection, firstNonNilOutcome, openFailure, isOpened,
          firstRecordedClose, safeClose]
    | ok u =>
        cases ctxErr with
        | some c =>
            simp [handleConnection, firstNonNilOutcome, openFailure, isOpened,
              firstRecordedClose, safeClose]
        | none =>
            rcases channelCloseErr with _ | e
            · simp [handleConnection, firstNonNilOutcome, openFailure, isOpened,
                firstRecordedClose, safeClose]
            · by_cases he : e = GoError.eof
              · subst he
                simp [handleConnection, firstNonNilOutcome, openFailure, isOpened,
                  firstRecordedClose, safeClose]
              · simp [handleConnection, firstNonNilOutcome, openFailure, isOpened,
                  firstRecordedClose, safeClose, he]
  · cases openResult <;> simp [handleConnection]
  · cases openResult <;> simp [handleConnection, isOpened]

/-- C5: on every exit path of `handleConnection` the local connection
is closed exactly once; the remote channel is closed exactly once when
the open succeeded and zero times when it failed (no channel exists to
close). -/
theorem handleConnection_closes_exactly_once (openResult : Except GoError Unit)
    (ctxErr channelCloseErr connCloseErr : Option GoError) :
    (handleConnection openResult ctxErr channelCloseErr connCloseErr).connCloseCount = 1
    ∧ (handleConnection openResult ctxErr channelCloseErr connCloseErr).channelCloseCount
        = (if isOpened openResult then 1 else 0) := by
  cases openResult <;> simp [handleConnection, isOpened]

/-- C6: when the announcement step reports success (on this code it
always does), `ForwardToListener` returns the context's cancellation
error when cancellation resolves first, and the first delivered
terminating error (from a handler or the accept loop) when the error
channel resolves first; the returned value is determined by the first
attempt alone — all later attempts (`rest`) are dropped. -/
theorem forwardToListener_first_resolved_wins (remotePort : Int)
    (startSharingRes : channelID × Option GoError) (attempts : List GoError)
    (ctxErr : Option GoError) (e : GoError) (rest : List GoError)
    (hshare : (shareRemotePort remotePort startSharingRes).2 = none) :
    ForwardToListener remotePort startSharingRes attempts RaceWinner.cancelFirst ctxErr = ctxErr
    ∧ (attempts = e :: rest →
        ForwardToListener remotePort startSharingRes attempts RaceWinner.errorFirst ctxErr
          = some e) := by
  refine ⟨?_, ?_⟩
  · simp [ForwardToListener, shareRemotePort, awaitError]
  · intro h
    subst h
    simp [ForwardToListener, shareRemotePort, awaitError, runDeliveries_cons]

/-- Witness for C6 at concrete inputs: with two handlers failing, the
first delivered error is returned and the second is dropped. -/
theorem forwardToListener_first_resolved_wins_witness :
    ForwardToListener 8080 (0, none) [GoError.eof, GoError.other "late failure"]
        RaceWinner.errorFirst (some (GoError.other "context canceled")) = some GoError.eof :=
  (forwardToListener_first_resolved_wins 8080 (0, none)
    [GoError.eof, GoError.other "late failure"] (some (GoError.other "context canceled"))
    GoError.eof [GoError.other "late failure"] rfl).2 rfl

/-- C7: across any ordered sequence of delivery attempts to the
single-slot channel, the slot ends holding exactly the first attempted
error (every later attempt is dropped), and at most one attempt is ever
delivered; each `sendError` is a total, immediately returning step
(non-blocking), its `default` branch dropping the attempt without
affecting the attempting goroutine. -/
theorem sendError_single_slot_first_wins (attempts : List GoError) :
    (runDeliveries attempts).1 = attempts.head? ∧ (runDeliveries attempts).2 ≤ 1 :=
  ⟨runDeliveries_fst attempts, runDeliveries_snd_le_one attempts⟩

/-- C8: the accept loop dispatches every successfully accepted
connection (in order, each to its own handler goroutine), terminates at
the first `Accept` error, and reports that error as the termination
signal; accept results after the first error (`rest`) are never
consumed. -/
theorem acceptLoop_terminates_on_first_error (conns : List Nat) (e : GoError)
    (rest : List (Except GoError Nat)) :
    acceptLoop (conns.map Except.ok ++ Except.error e :: rest) = (conns, some e) := by
  induction conns with
  | nil => rfl
  | cons c cs ih => simp [acceptLoop, ih]

/-- C9: the relay is byte-transparent in each direction: the bytes
arriving at the remote channel are exactly the bytes the local side
wrote, unmodified and in order, and the bytes arriving at the local
side are exactly the bytes the remote side wrote. -/
theorem relay_byte_transparent (localOut remoteOut : List UInt8) :
    relay localOut remoteOut = (remoteOut, localOut) := by
  simp [relay, ioCopy_appends]

/-- C10: neither entry point ever returns a nil error.  Hypotheses
record Go's contracts: `ctx.Err()` is non-nil once `Done` has closed,
and the receive arm of the `select` can only win when a value was
actually sent — and every send site is guarded so only non-nil errors
are sent (the `attempts`/`handlerDeliveries` lists carry `GoError`, not
`Option GoError`, because of those guards). -/
theorem entry_points_never_return_nil (remotePort : Int)
    (startSharingRes : channelID × Option GoError) (attempts : List GoError)
    (handlerErr : Option GoError) (winner : RaceWinner) (ctxErr : Option GoError)
    (hctx : ctxErr ≠ none)
    (hfl : winner = RaceWinner.errorFirst → attempts ≠ [])
    (hfw : winner = RaceWinner.errorFirst → handlerErr ≠ none) :
    ForwardToListener remotePort startSharingRes attempts winner ctxErr ≠ none
    ∧ (Forward remotePort startSharingRes handlerErr winner ctxErr).result ≠ none := by
  cases winner with
  | cancelFirst =>
      refine ⟨?_, ?_⟩
      · simpa [ForwardToListener, shareRemotePort, awaitError] using hctx
      · simpa [Forward, shareRemotePort, awaitError] using hctx
  | errorFirst =>
      refine ⟨?_, ?_⟩
      · have h := hfl rfl
        cases attempts with
        | nil => exact absurd rfl h
        | cons a as =>
            simp [ForwardToListener, shareRemotePort, awaitError, runDeliveries_cons]
      · have h := hfw rfl
        cases handlerErr with
        | none => exact absurd rfl h
        | some e =>
            simp [Forward, shareRemotePort, awaitError, handlerDeliveries, runDeliveries_cons]

/-- Witness for C10 at concrete inputs: a cancellation-first race with
a pending handler error still returns a non-nil error from both entry
points. -/
theorem entry_points_never_return_nil_witness :
    ForwardToListener 8080 (0, none) [GoError.eof] RaceWinner.cancelFirst
        (some (GoError.other "context canceled")) ≠ none
    ∧ (Forward 8080 (0, none) (some GoError.eof) RaceWinner.cancelFirst
        (some (GoError.other "context canceled"))).result ≠ none :=
  entry_points_never_return_nil 8080 (0, none) [GoError.eof] (some GoError.eof)
    RaceWinner.cancelFirst (some (GoError.other "context canceled"))
    (by decide) (fun h => by cases h) (fun h => by cases h)
